import Mathlib

/-!
Shallow embedding of the ARM7TDMI CPU emulator core of GBArs
(src/hardware/cpu/arm7tdmi.rs and src/hardware/cpu/arm7tdmi/execarm.rs).

Rust i32/u32 registers are embedded as Nat values in [0, 2^32) holding the
u32 bit pattern; signed interpretation is recovered by toI32. Rust u64
values are Nat values in [0, 2^64). Fallible code (Result, panics,
unimplemented paths) is embedded as Except.
-/

namespace GBArs

/-- The u32 value range, 2^32. -/
def U32LIMIT : Nat := 4294967296

/-- The u64 value range, 2^64. -/
def U64LIMIT : Nat := 18446744073709551616

/-- Rust 32-bit bitwise complement, such as in the source's use of the
complement operator on u32 masks. -/
def compl32 (x : Nat) : Nat := 4294967295 ^^^ x

/-- Rust u32 and i32 wrapping_add on the u32 bit pattern. -/
def wadd (a b : Nat) : Nat := (a + b) % U32LIMIT

/-- Rust u32 and i32 wrapping_sub on the u32 bit pattern. -/
def wsub (a b : Nat) : Nat := (a % U32LIMIT + (U32LIMIT - b % U32LIMIT)) % U32LIMIT

/-- Rust u32 and i32 wrapping_mul on the u32 bit pattern. -/
def wmul (a b : Nat) : Nat := (a * b) % U32LIMIT

/-- Interpret a u32 bit pattern as a Rust i32 value. -/
def toI32 (u : Nat) : Int :=
  if u % U32LIMIT < 2147483648 then ((u % U32LIMIT : Nat) : Int)
  else ((u % U32LIMIT : Nat) : Int) - (U32LIMIT : Int)

/-- Encode an integer into its two's-complement u32 bit pattern. -/
def intToU32 (x : Int) : Nat := (x % (U32LIMIT : Int)).toNat

/-- Encode an integer into its two's-complement u64 bit pattern (Rust
cast of an i32 or i64 value to u64). -/
def intToU64 (x : Int) : Nat := (x % (U64LIMIT : Int)).toNat

/-- Rust i32 wrapping_add of an i32 offset to a u32-encoded register. -/
def waddI (a : Nat) (b : Int) : Nat := (a % U32LIMIT + intToU32 b) % U32LIMIT

/-- Rust sign-extending cast of an i32 (given by its u32 bit pattern) to u64,
as written in the source's mull/mlal accumulate expression. -/
def castI32U64 (x : Nat) : Nat := intToU64 (toI32 x)

/-- Pointwise update of a finite register map, mirroring a Rust array
element assignment. -/
def setIdx {n : Nat} (f : Fin n → Nat) (i : Fin n) (v : Nat) : Fin n → Nat :=
  fun j => if j = i then v else f j

/-- The CPU's instruction decoding states (enum State in arm7tdmi.rs). -/
inductive State
  | ARM
  | THUMB
deriving DecidableEq

/-- State discriminant as in the Rust repr(u8) enum: ARM = 0, THUMB = 1. -/
def State.bitVal : State → Nat
  | .ARM => 0
  | .THUMB => 1

/-- The CPU's different execution modes (enum Mode in arm7tdmi.rs). -/
inductive Mode
  | User
  | FIQ
  | IRQ
  | Supervisor
  | Abort
  | Undefined
  | System
deriving DecidableEq

/-- Mode discriminant as in the Rust repr(u8) enum, used to index the
banked register and SPSR arrays. -/
def Mode.idx : Mode → Fin 7
  | .User => 0
  | .FIQ => 1
  | .IRQ => 2
  | .Supervisor => 3
  | .Abort => 4
  | .Undefined => 5
  | .System => 6

/-- Converts this mode into a CPSR bit pattern (Mode::as_bits). -/
def Mode.as_bits : Mode → Nat
  | .User => 0x10
  | .FIQ => 0x11
  | .IRQ => 0x12
  | .Supervisor => 0x13
  | .Abort => 0x17
  | .Undefined => 0x1B
  | .System => 0x1F

/-- CPU exceptions (enum Exception in arm7tdmi.rs), in Rust declaration
order, which fixes the repr(u8) discriminants. -/
inductive Exception
  | Reset
  | UndefinedInstruction
  | SoftwareInterrupt
  | PrefetchAbort
  | DataAbort
  | AddressExceeds26Bit
  | NormalInterrupt
  | FastInterrupt
deriving DecidableEq

/-- Exception discriminant as in the Rust repr(u8) enum. -/
def Exception.idx : Exception → Nat
  | .Reset => 0
  | .UndefinedInstruction => 1
  | .SoftwareInterrupt => 2
  | .PrefetchAbort => 3
  | .DataAbort => 4
  | .AddressExceeds26Bit => 5
  | .NormalInterrupt => 6
  | .FastInterrupt => 7

/-- Get the exception's priority (Exception::priority): 1 = highest. -/
def Exception.priority : Exception → Nat
  | .Reset => 1
  | .UndefinedInstruction => 7
  | .SoftwareInterrupt => 6
  | .PrefetchAbort => 5
  | .DataAbort => 2
  | .AddressExceeds26Bit => 3
  | .NormalInterrupt => 4
  | .FastInterrupt => 3

/-- Get the exception's CPU mode on entry (Exception::mode_on_entry). -/
def Exception.mode_on_entry : Exception → Mode
  | .Reset => .Supervisor
  | .UndefinedInstruction => .Undefined
  | .SoftwareInterrupt => .Supervisor
  | .PrefetchAbort => .Abort
  | .DataAbort => .Abort
  | .AddressExceeds26Bit => .Supervisor
  | .NormalInterrupt => .IRQ
  | .FastInterrupt => .FIQ

/-- Check whether fast interrupts should be disabled on entry
(Exception::disable_fiq_on_entry). -/
def Exception.disable_fiq_on_entry (e : Exception) : Bool :=
  (e = Exception.Reset) || (e = Exception.FastInterrupt)

/-- Get the exception vector address (Exception::vector_address):
the Rust discriminant times 4. -/
def Exception.vector_address (e : Exception) : Nat := e.idx * 4

/-- The Current Program Status Register: a newtype over the u32 word
(struct CPSR in arm7tdmi.rs). -/
structure CPSR where
  val : Nat
deriving DecidableEq

namespace CPSR

/-- Used to mask reserved bits away (CPSR::NON_RESERVED_MASK). -/
def NON_RESERVED_MASK : Nat := 0xF00000FF

/-- Modelled from the spec: the flags-only mask constant CPSR::FLAGS_MASK is
referenced by execarm.rs but declared in a part of the repository that is
not under src; the spec says flags-only writes may only alter bits 31..24,
so the mask covers exactly those bits. -/
def FLAGS_MASK : Nat := 0xFF000000

/-- Mode bits mask (CPSR::MODE_MASK). -/
def MODE_MASK : Nat := 0x1F

/-- Clears all reserved bits (CPSR::clear_reserved_bits). -/
def clear_reserved_bits (p : CPSR) : CPSR := ⟨p.val &&& NON_RESERVED_MASK⟩

/-- Get the condition bits NZCV (CPSR::condition_bits). -/
def condition_bits (p : CPSR) : Nat := p.val >>> 28

/-- Gets the current state of the N bit (CPSR::N). -/
def N (p : CPSR) : Bool := p.val &&& (1 <<< 31) != 0

/-- Gets the current state of the Z bit (CPSR::Z). -/
def Z (p : CPSR) : Bool := p.val &&& (1 <<< 30) != 0

/-- Gets the current state of the C bit (CPSR::C). -/
def C (p : CPSR) : Bool := p.val &&& (1 <<< 29) != 0

/-- Gets the current state of the V bit (CPSR::V). -/
def V (p : CPSR) : Bool := p.val &&& (1 <<< 28) != 0

/-- Observation of the IRQ disable bit (bit 7) of a PSR word. -/
def ibit (p : CPSR) : Bool := p.val.testBit 7

/-- Observation of the FIQ disable bit (bit 6) of a PSR word. -/
def fbit (p : CPSR) : Bool := p.val.testBit 6

/-- Observation of the state bit (bit 5) of a PSR word: false = ARM. -/
def tbit (p : CPSR) : Bool := p.val.testBit 5

/-- Sets or clears the state bit depending on the new state
(CPSR::set_state). -/
def set_state (p : CPSR) (s : State) : CPSR :=
  ⟨(p.val &&& compl32 (1 <<< 5)) ||| (s.bitVal <<< 5)⟩

/-- Sets or clears the mode bits depending on the new mode
(CPSR::set_mode). -/
def set_mode (p : CPSR) (m : Mode) : CPSR :=
  ⟨(p.val &&& compl32 MODE_MASK) ||| m.as_bits⟩

/-- Sets the IRQ disable bit (CPSR::disable_irq). -/
def disable_irq (p : CPSR) : CPSR := ⟨p.val ||| (1 <<< 7)⟩

/-- Sets the FIQ disable bit (CPSR::disable_fiq). -/
def disable_fiq (p : CPSR) : CPSR := ⟨p.val ||| (1 <<< 6)⟩

/-- Set the new state of the N bit (CPSR::set_N). -/
def set_N (p : CPSR) (n : Bool) : CPSR :=
  if n then ⟨p.val ||| (1 <<< 31)⟩ else ⟨p.val &&& compl32 (1 <<< 31)⟩

/-- Set the new state of the Z bit (CPSR::set_Z). -/
def set_Z (p : CPSR) (n : Bool) : CPSR :=
  if n then ⟨p.val ||| (1 <<< 30)⟩ else ⟨p.val &&& compl32 (1 <<< 30)⟩

/-- Set the new state of the C bit (CPSR::set_C). -/
def set_C (p : CPSR) (n : Bool) : CPSR :=
  if n then ⟨p.val ||| (1 <<< 29)⟩ else ⟨p.val &&& compl32 (1 <<< 29)⟩

/-- Set the new state of the V bit (CPSR::set_V). -/
def set_V (p : CPSR) (n : Bool) : CPSR :=
  if n then ⟨p.val ||| (1 <<< 28)⟩ else ⟨p.val &&& compl32 (1 <<< 28)⟩

/-- Converts the mode bit pattern to a mode enum (CPSR::mode). The Rust
code panics on an unrecognised pattern, embedded here as none. -/
def mode? (p : CPSR) : Option Mode :=
  match p.val &&& MODE_MASK with
  | 0x10 => some .User
  | 0x11 => some .FIQ
  | 0x12 => some .IRQ
  | 0x13 => some .Supervisor
  | 0x17 => some .Abort
  | 0x1B => some .Undefined
  | 0x1F => some .System
  | _ => none

end CPSR

/-- Error values surfaced by the executor. PrivilegedUserCode and
InvalidInstruction come from the repository's GbaError enum (its file is
outside src, modelled from the spec's error taxonomy); IllegalCPUState
embeds the fatal panic on unrecognised mode bits, and NotImplemented
embeds panic and unimplemented paths of the executor. -/
inductive GbaError
  | PrivilegedUserCode
  | InvalidInstruction
  | IllegalCPUState
  | NotImplemented
deriving DecidableEq

/-- The 4-bit ARM condition codes. Modelled from the spec: the Condition
enum lives in arminstruction.rs, which is not under src; the spec names the
sixteen codes including AL (always) and NV (reserved). -/
inductive Condition
  | EQ | NE | CS | CC | MI | PL | VS | VC
  | HI | LS | GE | LT | GT | LE | AL | NV
deriving DecidableEq

/-- Modelled from the spec: Condition::check evaluates the condition code
against CPSR's NZCV and returns a Result; the reserved NV code is treated
as undefined (an error), per the spec's condition-evaluation section. -/
def Condition.check (c : Condition) (p : CPSR) : Except GbaError Bool :=
  match c with
  | .EQ => .ok p.Z
  | .NE => .ok (!p.Z)
  | .CS => .ok p.C
  | .CC => .ok (!p.C)
  | .MI => .ok p.N
  | .PL => .ok (!p.N)
  | .VS => .ok p.V
  | .VC => .ok (!p.V)
  | .HI => .ok (p.C && !p.Z)
  | .LS => .ok (!p.C || p.Z)
  | .GE => .ok (p.N == p.V)
  | .LT => .ok (p.N != p.V)
  | .GT => .ok (!p.Z && (p.N == p.V))
  | .LE => .ok (p.Z || (p.N != p.V))
  | .AL => .ok true
  | .NV => .error .InvalidInstruction

/-- The data-processing operation subtypes (enum ArmDPOP), declared in
arminstruction.rs in Rust order. -/
inductive ArmDPOP
  | AND | EOR | SUB | RSB | ADD | ADC | SBC | RSC
  | TST | TEQ | CMP | CMN | ORR | MOV | BIC | MVN
deriving DecidableEq

/-- Modelled from the spec: ArmDPOP::is_logical is declared outside src;
the spec lists the logical data-processing operations as
AND, EOR, TST, TEQ, ORR, MOV, BIC, MVN. -/
def ArmDPOP.is_logical : ArmDPOP → Bool
  | .AND | .EOR | .TST | .TEQ | .ORR | .MOV | .BIC | .MVN => true
  | _ => false

/-- Modelled from the spec: ArmDPOP.is_test is declared outside src;
the test operations, which discard their result, are TST, TEQ, CMP, CMN. -/
def ArmDPOP.is_test : ArmDPOP → Bool
  | .TST | .TEQ | .CMP | .CMN => true
  | _ => false

/-- The opcode classes dispatched by the ARM-state executor
(enum ArmOpcode), as named by the spec's executor section. -/
inductive ArmOpcode
  | BX | B_BL | MUL_MLA | MULL_MLAL | DataProcessing
  | MRS | MSR_Reg | MSR_Flags | LDR_STR
deriving DecidableEq

/-- Modelled from the spec: a decoded ARM instruction (ArmInstruction in
arminstruction.rs, outside src) is an opaque value exposing the condition,
the opcode class, register field accessors, decode predicates, the
data-processing subtype, the branch offset, and the shift helpers that,
given the register file and the current C flag, return the computed
operand (and with-carry variant). Register values passed to and returned
by the helpers are u32 bit patterns. -/
structure ArmInstruction where
  condition : Condition
  opcode : ArmOpcode
  Rm : Fin 16
  Rn : Fin 16
  Rd : Fin 16
  Rs : Fin 16
  is_setting_flags : Bool
  is_accumulating : Bool
  is_signed : Bool
  is_branch_with_link : Bool
  is_accessing_spsr : Bool
  dpop : ArmDPOP
  branch_offset : Int
  shft : (Fin 16 → Nat) → Bool → Nat
  shft_with_carry : (Fin 16 → Nat) → Bool → Nat × Bool
  shsr : (Fin 16 → Nat) → Nat

/-- Modelled from the spec: ArmInstruction::nop(), the pipeline NOP value. -/
def nopInstruction : ArmInstruction where
  condition := .AL
  opcode := .DataProcessing
  Rm := 0
  Rn := 0
  Rd := 0
  Rs := 0
  is_setting_flags := false
  is_accumulating := false
  is_signed := false
  is_branch_with_link := false
  is_accessing_spsr := false
  dpop := .MOV
  branch_offset := 0
  shft := fun _ _ => 0
  shft_with_carry := fun _ c => (0, c)
  shsr := fun _ => 0

/-- The CPU state (struct Arm7Tdmi in arm7tdmi.rs): the sixteen visible
registers, CPSR, the seven SPSR slots, the two pipeline slots, the banked
register storage, and the cached settings. -/
structure Arm7Tdmi where
  gpr : Fin 16 → Nat
  cpsr : CPSR
  spsr : Fin 7 → Nat
  decoded : ArmInstruction
  fetched : Nat
  gpr_r8_r12_fiq : Fin 5 → Nat
  gpr_r8_r12_other : Fin 5 → Nat
  gpr_r13_all : Fin 7 → Nat
  gpr_r14_all : Fin 7 → Nat
  mode : Mode
  state : State
  irq_disable : Bool
  fiq_disable : Bool

/-- Resets the CPU (Arm7Tdmi::reset): zero the PC, load the supervisor
CPSR with IRQ and FIQ disabled, and refresh the cached settings. -/
def reset (s : Arm7Tdmi) : Arm7Tdmi :=
  { s with
    gpr := setIdx s.gpr 15 0,
    cpsr := ⟨0x13 ||| (1 <<< 7) ||| (1 <<< 6)⟩,
    mode := .Supervisor,
    state := .ARM,
    irq_disable := true,
    fiq_disable := true }

/-- Writes the FIQ-boundary bank into visible R8..R12, mirroring the
source's copy loop over gpr indices 8..12. -/
def updateHigh (g : Fin 16 → Nat) (bank : Fin 5 → Nat) : Fin 16 → Nat :=
  fun j =>
    if h : 8 ≤ j.val ∧ j.val ≤ 12 then bank ⟨j.val - 8, by omega⟩ else g j

/-- Reads visible R8..R12 into a bank, mirroring the source's save loop. -/
def readHigh (g : Fin 16 → Nat) : Fin 5 → Nat :=
  fun i => g ⟨i.val + 8, by have := i.isLt; omega⟩

/-- Performs a mode change (Arm7Tdmi::change_mode): saves the visible
R13/R14 into the old mode's banks, writes the return address (the current
PC, offset TODO in the source) into the new mode's R14 bank and the
visible R14, loads the new mode's R13 bank, saves the CPSR into the new
mode's SPSR slot, swaps R8..R12 at the FIQ boundary, and finally updates
the CPSR mode bits and the cached mode. -/
def change_mode (s : Arm7Tdmi) (new_mode : Mode) : Arm7Tdmi :=
  let cmi := s.mode.idx
  let nmi := new_mode.idx
  let ret_addr := s.gpr 15
  let r14a := setIdx (setIdx s.gpr_r14_all cmi (s.gpr 14)) nmi ret_addr
  let g1 := setIdx s.gpr 14 ret_addr
  let r13a := setIdx s.gpr_r13_all cmi (g1 13)
  let g2 := setIdx g1 13 (r13a nmi)
  let spsr1 := setIdx s.spsr nmi s.cpsr.val
  let swap := (new_mode == Mode.FIQ) != (s.mode == Mode.FIQ)
  let g3 :=
    if swap then
      if new_mode == Mode.FIQ then updateHigh g2 s.gpr_r8_r12_fiq
      else updateHigh g2 s.gpr_r8_r12_other
    else g2
  let fiqB := if swap && !(new_mode == Mode.FIQ) then readHigh g2 else s.gpr_r8_r12_fiq
  let otherB := if swap && (new_mode == Mode.FIQ) then readHigh g2 else s.gpr_r8_r12_other
  { s with
    gpr := g3,
    gpr_r14_all := r14a,
    gpr_r13_all := r13a,
    spsr := spsr1,
    gpr_r8_r12_fiq := fiqB,
    gpr_r8_r12_other := otherB,
    cpsr := s.cpsr.set_mode new_mode,
    mode := new_mode }

/-- Causes an exception (Arm7Tdmi::exception): change into the entry mode,
force ARM state, set the IRQ disable bit, set the FIQ disable bit when the
exception requires it, and jump to the vector address. -/
def exception (s : Arm7Tdmi) (ex : Exception) : Arm7Tdmi :=
  let s1 := change_mode s ex.mode_on_entry
  let s2 := { s1 with cpsr := s1.cpsr.set_state .ARM, state := State.ARM }
  let s3 := { s2 with cpsr := s2.cpsr.disable_irq }
  let s4 := if ex.disable_fiq_on_entry then { s3 with cpsr := s3.cpsr.disable_fiq } else s3
  { s4 with gpr := setIdx s4.gpr 15 ex.vector_address }

/-- Rust helper Arm7Tdmi::add_carry_overflow: the carry is bit 32 of the
64-bit sum of the zero-extended operands, the overflow is the i32
overflowing_add flag, and the value is the wrapped 32-bit sum. -/
def add_carry_overflow (a b : Nat) : Nat × Bool × Bool :=
  let res64 : Nat := (a % U32LIMIT + b % U32LIMIT) % U64LIMIT
  let cf : Bool := res64 &&& (1 <<< 32) != 0
  let sum : Int := toI32 a + toI32 b
  let vf : Bool := decide (sum < -2147483648 ∨ 2147483648 ≤ sum)
  (wadd a b, cf, vf)

/-- Rust helper Arm7Tdmi::sub_carry_overflow: the carry is bit 32 of the
64-bit wrapping difference of the zero-extended operands, the overflow is
the i32 overflowing_sub flag, and the value is the wrapped 32-bit
difference. -/
def sub_carry_overflow (a b : Nat) : Nat × Bool × Bool :=
  let res64 : Nat := (a % U32LIMIT + (U64LIMIT - b % U32LIMIT)) % U64LIMIT
  let cf : Bool := res64 &&& (1 <<< 32) != 0
  let diff : Int := toI32 a - toI32 b
  let vf : Bool := decide (diff < -2147483648 ∨ 2147483648 ≤ diff)
  (wsub a b, cf, vf)

/-- Arm7Tdmi::execute_bx in execarm.rs: switch state on bit 0 of Rm and
jump to the address with bit 0 cleared. -/
def execute_bx (s : Arm7Tdmi) (inst : ArmInstruction) : Arm7Tdmi × Except GbaError Unit :=
  let addr := s.gpr inst.Rm
  let st := if addr &&& 1 == 0 then State.ARM else State.THUMB
  ({ s with
      state := st,
      cpsr := s.cpsr.set_state st,
      gpr := setIdx s.gpr 15 (addr &&& 0xFFFFFFFE) },
   .ok ())

/-- Arm7Tdmi::execute_b_bl in execarm.rs: for the link variant copy
PC minus 4 into R14, then add the branch offset to PC. -/
def execute_b_bl (s : Arm7Tdmi) (inst : ArmInstruction) : Arm7Tdmi × Except GbaError Unit :=
  let g1 := if inst.is_branch_with_link then setIdx s.gpr 14 (wsub (s.gpr 15) 4) else s.gpr
  ({ s with gpr := setIdx g1 15 (waddI (g1 15) inst.branch_offset) }, .ok ())

/-- Arm7Tdmi::execute_mul_mla_s in execarm.rs: the flag-setting 32-bit
multiply-accumulate; C is set to false ("some meaningless value"). -/
def execute_mul_mla_s (s : Arm7Tdmi) (inst : ArmInstruction) : Arm7Tdmi × Except GbaError Unit :=
  let x0 := wmul (s.gpr inst.Rs) (s.gpr inst.Rm)
  let x := if inst.is_accumulating then wadd x0 (s.gpr inst.Rd) else x0
  let p := ((s.cpsr.set_N (decide (toI32 x < 0))).set_Z (decide (x = 0))).set_C false
  ({ s with gpr := setIdx s.gpr inst.Rn x, cpsr := p }, .ok ())

/-- Arm7Tdmi::execute_mul_mla in execarm.rs: the 32-bit
multiply-accumulate, dispatching to the flag-setting variant. -/
def execute_mul_mla (s : Arm7Tdmi) (inst : ArmInstruction) : Arm7Tdmi × Except GbaError Unit :=
  if inst.is_setting_flags then execute_mul_mla_s s inst
  else
    let x0 := wmul (s.gpr inst.Rs) (s.gpr inst.Rm)
    let x := if inst.is_accumulating then wadd x0 (s.gpr inst.Rd) else x0
    ({ s with gpr := setIdx s.gpr inst.Rn x }, .ok ())

/-- Arm7Tdmi::execute_mull_mlal in execarm.rs: the 64-bit
multiply-accumulate. The signed variant multiplies the i64 sign
extensions; the variant written as unsigned in the source also sign
extends its i32 operands through the Rust u64 casts, as does the
accumulate expression for both halves of the concatenation. -/
def execute_mull_mlal (s : Arm7Tdmi) (inst : ArmInstruction) : Arm7Tdmi × Except GbaError Unit :=
  let res0 : Nat :=
    if inst.is_signed then intToU64 (toI32 (s.gpr inst.Rs) * toI32 (s.gpr inst.Rm))
    else (castI32U64 (s.gpr inst.Rs) * castI32U64 (s.gpr inst.Rm)) % U64LIMIT
  let res : Nat :=
    if inst.is_accumulating then
      (res0 + (((castI32U64 (s.gpr inst.Rn) <<< 32) % U64LIMIT) ||| castI32U64 (s.gpr inst.Rd))) % U64LIMIT
    else res0
  let g := setIdx (setIdx s.gpr inst.Rn ((res >>> 32) &&& 0xFFFFFFFF)) inst.Rd (res &&& 0xFFFFFFFF)
  let s1 := { s with gpr := g }
  if inst.is_setting_flags then
    ({ s1 with
        cpsr := (((s1.cpsr.set_N (decide (9223372036854775808 ≤ res))).set_Z
          (decide (res = 0))).set_C false).set_V false },
     .ok ())
  else (s1, .ok ())

/-- Arm7Tdmi::execute_data_processing_s in execarm.rs: the flag-setting
data-processing path. The carry input c is read from CPSR.C; for ADC the
carry is folded into op2 with a 32-bit wrapping add before the
add-carry-overflow helper, and for SBC/RSC the borrow is folded the same
way. With Rd = R15 the CPSR is replaced by the current mode's SPSR;
otherwise N/Z are set from the result and C/V from the shifter carry
(logical ops) or the helper flags (arithmetic ops). Test operations skip
the register write. -/
def execute_data_processing_s (s : Arm7Tdmi) (inst : ArmInstruction) : Arm7Tdmi × Except GbaError Unit :=
  let oc := inst.shft_with_carry s.gpr s.cpsr.C
  let op2 := oc.1
  let cshft := oc.2
  let rn := s.gpr inst.Rn
  let c : Nat := if s.cpsr.C then 1 else 0
  let op := inst.dpop
  let rcv : Nat × Bool × Bool :=
    match op with
    | .AND | .TST => (rn &&& op2, false, false)
    | .EOR | .TEQ => (rn ^^^ op2, false, false)
    | .SUB | .CMP => sub_carry_overflow rn op2
    | .RSB => sub_carry_overflow op2 rn
    | .ADD | .CMN => add_carry_overflow rn op2
    | .ADC => add_carry_overflow rn (wadd op2 c)
    | .SBC => sub_carry_overflow rn (wsub op2 (1 - c))
    | .RSC => sub_carry_overflow op2 (wsub rn (1 - c))
    | .ORR => (rn ||| op2, false, false)
    | .MOV => (op2, false, false)
    | .BIC => (rn &&& compl32 op2, false, false)
    | .MVN => (compl32 op2, false, false)
  let rd := rcv.1
  let cf := rcv.2.1
  let vf := rcv.2.2
  let s1 :=
    if inst.Rd = (15 : Fin 16) then { s with cpsr := ⟨s.spsr s.mode.idx⟩ }
    else
      let p := (s.cpsr.set_N (decide (toI32 rd < 0))).set_Z (decide (rd = 0))
      let p := if op.is_logical then p.set_C cshft else (p.set_C cf).set_V vf
      { s with cpsr := p }
  if op.is_test then (s1, .ok ())
  else ({ s1 with gpr := setIdx s1.gpr inst.Rd rd }, .ok ())

/-- Arm7Tdmi::execute_data_processing in execarm.rs: the non-flag-setting
data-processing path; test operations without the S bit panic in the
source, embedded as an error. -/
def execute_data_processing (s : Arm7Tdmi) (inst : ArmInstruction) : Arm7Tdmi × Except GbaError Unit :=
  if inst.is_setting_flags then execute_data_processing_s s inst
  else
    let op2 := inst.shft s.gpr s.cpsr.C
    let rn := s.gpr inst.Rn
    let c : Nat := if s.cpsr.C then 1 else 0
    match inst.dpop with
    | .AND => ({ s with gpr := setIdx s.gpr inst.Rd (rn &&& op2) }, .ok ())
    | .EOR => ({ s with gpr := setIdx s.gpr inst.Rd (rn ^^^ op2) }, .ok ())
    | .SUB => ({ s with gpr := setIdx s.gpr inst.Rd (wsub rn op2) }, .ok ())
    | .RSB => ({ s with gpr := setIdx s.gpr inst.Rd (wsub op2 rn) }, .ok ())
    | .ADD => ({ s with gpr := setIdx s.gpr inst.Rd (wadd rn op2) }, .ok ())
    | .ADC => ({ s with gpr := setIdx s.gpr inst.Rd (wadd (wadd rn op2) c) }, .ok ())
    | .SBC => ({ s with gpr := setIdx s.gpr inst.Rd (wsub (wsub rn op2) (1 - c)) }, .ok ())
    | .RSC => ({ s with gpr := setIdx s.gpr inst.Rd (wsub (wsub op2 rn) (1 - c)) }, .ok ())
    | .TST => (s, .error .NotImplemented)
    | .TEQ => (s, .error .NotImplemented)
    | .CMP => (s, .error .NotImplemented)
    | .CMN => (s, .error .NotImplemented)
    | .ORR => ({ s with gpr := setIdx s.gpr inst.Rd (rn ||| op2) }, .ok ())
    | .MOV => ({ s with gpr := setIdx s.gpr inst.Rd op2 }, .ok ())
    | .BIC => ({ s with gpr := setIdx s.gpr inst.Rd (rn &&& compl32 op2) }, .ok ())
    | .MVN => ({ s with gpr := setIdx s.gpr inst.Rd (compl32 op2) }, .ok ())

/-- Arm7Tdmi::execute_mrs in execarm.rs: read the CPSR, or the current
mode's SPSR, into Rd; a User-mode SPSR read fails with
PrivilegedUserCode before any state change. -/
def execute_mrs (s : Arm7Tdmi) (inst : ArmInstruction) : Arm7Tdmi × Except GbaError Unit :=
  if inst.is_accessing_spsr then
    if s.mode = Mode.User then (s, .error .PrivilegedUserCode)
    else ({ s with gpr := setIdx s.gpr inst.Rd (s.spsr s.mode.idx) }, .ok ())
  else ({ s with gpr := setIdx s.gpr inst.Rd s.cpsr.val }, .ok ())

/-- Rust helper Arm7Tdmi::override_psr: overwrite the non-reserved bits of
a PSR word, preserving the reserved bits. -/
def override_psr (psr val : Nat) : Nat :=
  (val &&& CPSR.NON_RESERVED_MASK) ||| (psr &&& compl32 CPSR.NON_RESERVED_MASK)

/-- Rust helper Arm7Tdmi::override_psr_flags: overwrite only the flag bits
of a PSR word, preserving everything else. -/
def override_psr_flags (psr val : Nat) : Nat :=
  (val &&& CPSR.FLAGS_MASK) ||| (psr &&& compl32 CPSR.FLAGS_MASK)

/-- Arm7Tdmi::execute_msr_reg in execarm.rs: a register-sourced whole-PSR
write. In User mode only the CPSR flag bits may be written and SPSR access
fails with PrivilegedUserCode. In privileged modes the write targets the
current mode's SPSR or the CPSR, after which a mode change is triggered to
the mode encoded in the (possibly new) CPSR; an unrecognised mode pattern
is the source's fatal panic, embedded as IllegalCPUState. -/
def execute_msr_reg (s : Arm7Tdmi) (inst : ArmInstruction) : Arm7Tdmi × Except GbaError Unit :=
  let rm := s.gpr inst.Rm
  if s.mode = Mode.User then
    if inst.is_accessing_spsr then (s, .error .PrivilegedUserCode)
    else ({ s with cpsr := ⟨override_psr_flags s.cpsr.val rm⟩ }, .ok ())
  else
    let s1 :=
      if inst.is_accessing_spsr then
        { s with spsr := setIdx s.spsr s.mode.idx (override_psr (s.spsr s.mode.idx) rm) }
      else { s with cpsr := ⟨override_psr s.cpsr.val rm⟩ }
    match s1.cpsr.mode? with
    | none => (s1, .error .IllegalCPUState)
    | some m => (change_mode s1 m, .ok ())

/-- Arm7Tdmi::execute_msr_flags in execarm.rs: a flags-only PSR write from
the decoded source operand; a User-mode SPSR write fails with
PrivilegedUserCode before any state change. -/
def execute_msr_flags (s : Arm7Tdmi) (inst : ArmInstruction) : Arm7Tdmi × Except GbaError Unit :=
  let op := inst.shsr s.gpr
  if inst.is_accessing_spsr then
    if s.mode = Mode.User then (s, .error .PrivilegedUserCode)
    else ({ s with spsr := setIdx s.spsr s.mode.idx (override_psr_flags (s.spsr s.mode.idx) op) }, .ok ())
  else ({ s with cpsr := ⟨override_psr_flags s.cpsr.val op⟩ }, .ok ())

/-- Arm7Tdmi::execute_ldr_str in execarm.rs is unimplemented in the
source, embedded as an error. -/
def execute_ldr_str (s : Arm7Tdmi) (_inst : ArmInstruction) : Arm7Tdmi × Except GbaError Unit :=
  (s, .error .NotImplemented)

/-- Arm7Tdmi::execute_arm_state in execarm.rs: evaluate the condition
against the CPSR; on failure skip the instruction with no state change, on
an invalid condition propagate the error, otherwise dispatch on the opcode
class. -/
def execute_arm_state (s : Arm7Tdmi) (inst : ArmInstruction) : Arm7Tdmi × Except GbaError Unit :=
  match inst.condition.check s.cpsr with
  | .error e => (s, .error e)
  | .ok false => (s, .ok ())
  | .ok true =>
    match inst.opcode with
    | .BX => execute_bx s inst
    | .B_BL => execute_b_bl s inst
    | .MUL_MLA => execute_mul_mla s inst
    | .MULL_MLAL => execute_mull_mlal s inst
    | .DataProcessing => execute_data_processing s inst
    | .MRS => execute_mrs s inst
    | .MSR_Reg => execute_msr_reg s inst
    | .MSR_Flags => execute_msr_flags s inst
    | .LDR_STR => execute_ldr_str s inst

/-- A CPU value with every register, bank, PSR and pipeline slot zeroed,
in System mode and ARM state, used as the base of the concrete scenarios. -/
def zeroCpu : Arm7Tdmi where
  gpr := fun _ => 0
  cpsr := ⟨0⟩
  spsr := fun _ => 0
  decoded := nopInstruction
  fetched := 0
  gpr_r8_r12_fiq := fun _ => 0
  gpr_r8_r12_other := fun _ => 0
  gpr_r13_all := fun _ => 0
  gpr_r14_all := fun _ => 0
  mode := .System
  state := .ARM
  irq_disable := false
  fiq_disable := false

/-- The instruction SUBS R0, R1, R2: a flag-setting data-processing SUB
whose shift field selects register R2 unshifted. -/
def subsInst : ArmInstruction :=
  { nopInstruction with
    opcode := .DataProcessing,
    dpop := .SUB,
    is_setting_flags := true,
    Rn := 1,
    Rd := 0,
    shft_with_carry := fun g c => (g 2, c) }

/-- The pre-state of the SUBS scenario: R1 = 5, R2 = 3, all flags clear. -/
def subsCpu : Arm7Tdmi :=
  { zeroCpu with gpr := fun i => if i = 1 then 5 else if i = 2 then 3 else 0 }

/-- The instruction ADCS R0, R1, #0xFFFFFFFF: a flag-setting ADC whose
shift field yields the immediate 0xFFFFFFFF. -/
def adcsInst : ArmInstruction :=
  { nopInstruction with
    opcode := .DataProcessing,
    dpop := .ADC,
    is_setting_flags := true,
    Rn := 1,
    Rd := 0,
    shft_with_carry := fun _ c => (0xFFFFFFFF, c) }

/-- The pre-state of the ADCS scenario: all registers zero and the C flag
set. -/
def adcsCpu : Arm7Tdmi := { zeroCpu with cpsr := ⟨1 <<< 29⟩ }

/-- An accumulating unsigned long multiply UMLAL R5, R4, R2, R3
(RdLo = R5, RdHi = R4, Rm, Rs). -/
def umlalInst : ArmInstruction :=
  { nopInstruction with
    opcode := .MULL_MLAL,
    is_signed := false,
    is_accumulating := true,
    Rs := 2,
    Rm := 3,
    Rn := 4,
    Rd := 5 }

/-- The pre-state of the UMLAL scenario: Rs = Rm = 1, the accumulator high
word (R4) zero, and the accumulator low word (R5) with bit 31 set. -/
def umlalCpu : Arm7Tdmi :=
  { zeroCpu with
    gpr := fun i => if i = 2 then 1 else if i = 3 then 1 else if i = 5 then 0x80000000 else 0 }

/-- The pre-state of the mode round-trip scenario: User mode with
R13 = 0xAAAA, R14 = 0x42, PC = 0x100, CPSR holding the User pattern. -/
def roundtripCpu : Arm7Tdmi :=
  { zeroCpu with
    gpr := fun i => if i = 13 then 0xAAAA else if i = 14 then 0x42 else if i = 15 then 0x100 else 0,
    cpsr := ⟨0x10⟩,
    mode := .User }

/-- The pre-state of the SWI entry scenario: User mode, PC = 0x200,
CPSR = 0x10 with no flags. -/
def swiCpu : Arm7Tdmi :=
  { zeroCpu with
    gpr := fun i => if i = 15 then 0x200 else 0,
    cpsr := ⟨0x10⟩,
    mode := .User }

/-- The pre-state of the F-bit counterexample: User mode with the FIQ
disable bit already set before exception entry (CPSR = 0x50). -/
def fiqSetCpu : Arm7Tdmi := { zeroCpu with cpsr := ⟨0x50⟩, mode := .User }

/-- Values of Nat.testBit at the constants produced by the exception entry
sequence (the set-mode and set-state masks, the IRQ/FIQ disable bits and
the seven mode bit patterns), at bit positions 5, 6 and 7. -/
lemma exceptionBitFacts :
    Nat.testBit 4294967264 5 = true ∧ Nat.testBit 4294967264 6 = true ∧ Nat.testBit 4294967264 7 = true ∧
    Nat.testBit 4294967263 5 = false ∧ Nat.testBit 4294967263 6 = true ∧ Nat.testBit 4294967263 7 = true ∧
    Nat.testBit 128 5 = false ∧ Nat.testBit 128 6 = false ∧ Nat.testBit 128 7 = true ∧
    Nat.testBit 64 5 = false ∧ Nat.testBit 64 6 = true ∧ Nat.testBit 64 7 = false ∧
    Nat.testBit 17 5 = false ∧ Nat.testBit 17 6 = false ∧ Nat.testBit 17 7 = false ∧
    Nat.testBit 18 5 = false ∧ Nat.testBit 18 6 = false ∧ Nat.testBit 18 7 = false ∧
    Nat.testBit 19 5 = false ∧ Nat.testBit 19 6 = false ∧ Nat.testBit 19 7 = false ∧
    Nat.testBit 23 5 = false ∧ Nat.testBit 23 6 = false ∧ Nat.testBit 23 7 = false ∧
    Nat.testBit 27 5 = false ∧ Nat.testBit 27 6 = false ∧ Nat.testBit 27 7 = false := by
  decide

/-- C1: the claim says SUBS with R1 = 5, R2 = 3 leaves R0 = 2, N = 0,
Z = 0, C = 1, V = 0, C being set exactly when Rn is at least op2 (no
borrow). Evaluating the executor at that input shows the register result
and N, Z, V as claimed, but C = 0: sub_carry_overflow takes bit 32 of the
64-bit wrapping difference, which is set exactly on borrow, the inverse of
the claimed (and the CPSR carry documentation's) convention. -/
theorem C1_subs_carry_eval :
    (execute_data_processing subsCpu subsInst).1.gpr 0 = 2 ∧
    (execute_data_processing subsCpu subsInst).1.cpsr.N = false ∧
    (execute_data_processing subsCpu subsInst).1.cpsr.Z = false ∧
    (execute_data_processing subsCpu subsInst).1.cpsr.C = false ∧
    (execute_data_processing subsCpu subsInst).1.cpsr.V = false := by
  decide

/-- C2: the claim says a mode round trip A to B to A restores the visible
R13 and R14. Evaluating change_mode from User (R13 = 0xAAAA, R14 = 0x42,
PC = 0x100) to Supervisor and back shows R13 restored but R14 = 0x100,
the return address written on every mode change, instead of the original
0x42. -/
theorem C2_roundtrip_eval :
    roundtripCpu.gpr 14 = 0x42 ∧
    (change_mode (change_mode roundtripCpu .Supervisor) .User).gpr 13 = 0xAAAA ∧
    (change_mode (change_mode roundtripCpu .Supervisor) .User).gpr 14 = 0x100 := by
  decide

/-- C3 counterexample: entering SoftwareInterrupt from a state whose FIQ
disable bit is already set leaves F set, refuting the claim that after
entry F is set if and only if the exception is Reset or FastInterrupt. -/
theorem C3_counterexample :
    ¬ ((exception fiqSetCpu .SoftwareInterrupt).cpsr.fbit
        = (decide (Exception.SoftwareInterrupt = Exception.Reset)
            || decide (Exception.SoftwareInterrupt = Exception.FastInterrupt))) := by
  decide

/-- C3 amended: after entry into any of the eight exceptions, from every
pre-entry CPU state, the I bit is set and the T bit is cleared; the F bit
is set if the exception is Reset or FastInterrupt and is otherwise left
unchanged. -/
theorem C3_amended_flags (s : Arm7Tdmi) (ex : Exception) :
    (exception s ex).cpsr.ibit = true ∧
    (exception s ex).cpsr.tbit = false ∧
    (exception s ex).cpsr.fbit = (ex.disable_fiq_on_entry || s.cpsr.fbit) := by
  cases ex <;>
    simp [exception, change_mode, Exception.mode_on_entry, Exception.disable_fiq_on_entry,
      CPSR.set_mode, CPSR.set_state, CPSR.disable_irq, CPSR.disable_fiq, CPSR.MODE_MASK,
      CPSR.ibit, CPSR.fbit, CPSR.tbit, Mode.as_bits, State.bitVal, compl32,
      Nat.testBit_lor, Nat.testBit_land, exceptionBitFacts]

/-- C4: the claim says ADCS writes Rn + op2 + C modulo 2^32 and sets C to
the carry-out of the single 33-bit sum, so with Rn = 0, op2 = 0xFFFFFFFF
and C = 1 the carry-out is 1. Evaluating the executor shows the register
result 0 as claimed but C = 0: the source folds the carry into op2 with a
32-bit wrapping add (0xFFFFFFFF + 1 wraps to 0) before taking the
carry-out of Rn + 0. -/
theorem C4_adc_carry_eval :
    (execute_data_processing adcsCpu adcsInst).1.gpr 0 = 0 ∧
    (execute_data_processing adcsCpu adcsInst).1.cpsr.C = false := by
  decide

/-- C5: the claim says accumulating MLAL adds the unsigned concatenation
of Rn (high) and Rd (low) for all values of Rd, including those with bit
31 set. Evaluating UMLAL with Rs = Rm = 1, Rn = 0, Rd = 0x80000000 shows
the high result word is 0xFFFFFFFF instead of the claimed 0: the source
sign-extends gpr of Rd through the i32-to-u64 cast, so the accumulator is
0xFFFFFFFF80000000 rather than 0x0000000080000000. -/
theorem C5_mlal_accumulate_eval :
    (execute_mull_mlal umlalCpu umlalInst).1.gpr 4 = 0xFFFFFFFF ∧
    (execute_mull_mlal umlalCpu umlalInst).1.gpr 5 = 0x80000001 := by
  decide

/-- C6: each of the eight exception kinds has exactly the claimed
priority, entry mode, FIQ-disable-on-entry flag and vector address. -/
theorem C6_exception_table :
    (Exception.Reset.priority = 1 ∧ Exception.Reset.mode_on_entry = Mode.Supervisor ∧
      Exception.Reset.disable_fiq_on_entry = true ∧ Exception.Reset.vector_address = 0x00) ∧
    (Exception.DataAbort.priority = 2 ∧ Exception.DataAbort.mode_on_entry = Mode.Abort ∧
      Exception.DataAbort.disable_fiq_on_entry = false ∧ Exception.DataAbort.vector_address = 0x10) ∧
    (Exception.FastInterrupt.priority = 3 ∧ Exception.FastInterrupt.mode_on_entry = Mode.FIQ ∧
      Exception.FastInterrupt.disable_fiq_on_entry = true ∧ Exception.FastInterrupt.vector_address = 0x1C) ∧
    (Exception.AddressExceeds26Bit.priority = 3 ∧ Exception.AddressExceeds26Bit.mode_on_entry = Mode.Supervisor ∧
      Exception.AddressExceeds26Bit.disable_fiq_on_entry = false ∧ Exception.AddressExceeds26Bit.vector_address = 0x14) ∧
    (Exception.NormalInterrupt.priority = 4 ∧ Exception.NormalInterrupt.mode_on_entry = Mode.IRQ ∧
      Exception.NormalInterrupt.disable_fiq_on_entry = false ∧ Exception.NormalInterrupt.vector_address = 0x18) ∧
    (Exception.PrefetchAbort.priority = 5 ∧ Exception.PrefetchAbort.mode_on_entry = Mode.Abort ∧
      Exception.PrefetchAbort.disable_fiq_on_entry = false ∧ Exception.PrefetchAbort.vector_address = 0x0C) ∧
    (Exception.SoftwareInterrupt.priority = 6 ∧ Exception.SoftwareInterrupt.mode_on_entry = Mode.Supervisor ∧
      Exception.SoftwareInterrupt.disable_fiq_on_entry = false ∧ Exception.SoftwareInterrupt.vector_address = 0x08) ∧
    (Exception.UndefinedInstruction.priority = 7 ∧ Exception.UndefinedInstruction.mode_on_entry = Mode.Undefined ∧
      Exception.UndefinedInstruction.disable_fiq_on_entry = false ∧ Exception.UndefinedInstruction.vector_address = 0x04) := by
  decide

/-- C7: raising SoftwareInterrupt from mode User, PC = 0x200,
CPSR = 0x10 leaves the CPU in Supervisor mode at PC = 0x08 with the I bit
set, the F bit still clear, the Supervisor SPSR slot holding the
pre-exception CPSR 0x10, and the Supervisor-banked R14 holding the return
address (the PC at entry, 0x200). -/
theorem C7_swi_entry :
    (exception swiCpu .SoftwareInterrupt).mode = Mode.Supervisor ∧
    (exception swiCpu .SoftwareInterrupt).gpr 15 = 0x08 ∧
    (exception swiCpu .SoftwareInterrupt).cpsr.ibit = true ∧
    (exception swiCpu .SoftwareInterrupt).cpsr.fbit = false ∧
    (exception swiCpu .SoftwareInterrupt).spsr 3 = 0x10 ∧
    (exception swiCpu .SoftwareInterrupt).gpr_r14_all 3 = 0x200 := by
  decide

/-- C8: an ARM instruction whose condition code evaluates to false against
the current CPSR changes no architectural state: the executor returns the
CPU state unchanged (every register, bank, PSR, and cached field). -/
theorem C8_failed_condition_no_change (s : Arm7Tdmi) (inst : ArmInstruction)
    (h : inst.condition.check s.cpsr = .ok false) :
    execute_arm_state s inst = (s, .ok ()) := by
  unfold execute_arm_state
  rw [h]

/-- Witness for C8: a concrete NE-conditioned instruction in a state with
the Z flag set evaluates its condition to false and leaves the CPU
unchanged. -/
theorem C8_failed_condition_no_change_witness :
    ({ nopInstruction with condition := .NE } : ArmInstruction).condition.check
      ({ zeroCpu with cpsr := ⟨1 <<< 30⟩ } : Arm7Tdmi).cpsr = .ok false ∧
    execute_arm_state { zeroCpu with cpsr := ⟨1 <<< 30⟩ } { nopInstruction with condition := .NE }
      = ({ zeroCpu with cpsr := ⟨1 <<< 30⟩ }, .ok ()) :=
  ⟨rfl, C8_failed_condition_no_change _ _ rfl⟩

/-- C9: in User mode, MRS with the SPSR bit, MSR_Reg with the SPSR bit,
and MSR_Flags targeting SPSR all return PrivilegedUserCode with the CPU
state completely unchanged. -/
theorem C9_user_spsr_access (s : Arm7Tdmi) (inst : ArmInstruction)
    (hm : s.mode = Mode.User) (hs : inst.is_accessing_spsr = true) :
    execute_mrs s inst = (s, .error .PrivilegedUserCode) ∧
    execute_msr_reg s inst = (s, .error .PrivilegedUserCode) ∧
    execute_msr_flags s inst = (s, .error .PrivilegedUserCode) := by
  refine ⟨?_, ?_, ?_⟩ <;> simp [execute_mrs, execute_msr_reg, execute_msr_flags, hm, hs]

/-- Witness for C9: a concrete User-mode CPU and an SPSR-accessing
instruction produce the PrivilegedUserCode error with no state change for
all three PSR-transfer handlers. -/
theorem C9_user_spsr_access_witness :
    ({ zeroCpu with mode := .User } : Arm7Tdmi).mode = Mode.User ∧
    ({ nopInstruction with is_accessing_spsr := true } : ArmInstruction).is_accessing_spsr = true ∧
    (execute_mrs { zeroCpu with mode := .User } { nopInstruction with is_accessing_spsr := true }
        = ({ zeroCpu with mode := .User }, .error .PrivilegedUserCode) ∧
      execute_msr_reg { zeroCpu with mode := .User } { nopInstruction with is_accessing_spsr := true }
        = ({ zeroCpu with mode := .User }, .error .PrivilegedUserCode) ∧
      execute_msr_flags { zeroCpu with mode := .User } { nopInstruction with is_accessing_spsr := true }
        = ({ zeroCpu with mode := .User }, .error .PrivilegedUserCode)) :=
  ⟨rfl, rfl, C9_user_spsr_access _ _ rfl rfl⟩

/-- C10: reset modifies only the program counter (which becomes 0), the
CPSR (which becomes the Supervisor word with IRQ and FIQ disabled, 0xD3)
and the cached mode, state and interrupt-disable fields; R0..R14, every
banked register slot, every SPSR slot and both pipeline slots are left
unchanged, so reset performs no banking and saves no SPSR. -/
theorem C10_reset_frame (s : Arm7Tdmi) :
    (∀ i : Fin 16, (reset s).gpr i = if i = 15 then 0 else s.gpr i) ∧
    (reset s).cpsr = ⟨0xD3⟩ ∧
    (reset s).mode = Mode.Supervisor ∧
    (reset s).state = State.ARM ∧
    (reset s).irq_disable = true ∧
    (reset s).fiq_disable = true ∧
    (reset s).spsr = s.spsr ∧
    (reset s).gpr_r8_r12_fiq = s.gpr_r8_r12_fiq ∧
    (reset s).gpr_r8_r12_other = s.gpr_r8_r12_other ∧
    (reset s).gpr_r13_all = s.gpr_r13_all ∧
    (reset s).gpr_r14_all = s.gpr_r14_all ∧
    (reset s).decoded = s.decoded ∧
    (reset s).fetched = s.fetched := by
  refine ⟨fun i => ?_, rfl, rfl, rfl, rfl, rfl, rfl, rfl, rfl, rfl, rfl, rfl, rfl⟩
  simp [reset, setIdx]

end GBArs
